import Mathlib

/-!
# Verification of the MultiNest watch/snapshot tool

A shallow embedding of `snapshot.py` (the parser / stopping-criteria
evaluator) and of the monitor logic of `watch.py`, together with proofs of
the specified properties.

Numbers are modelled by an arbitrary linear ordered field `α` (the code's
floats, idealised); the numeric library functions `exp`, `log`, `sqrt`
(`numpy.exp`, `numpy.log`, `x ** 0.5`) and the Python token conversions
`int(...)` / `float(...)` are opaque parameters collected in an `Ops`
structure, since no claim depends on their numeric values.  The three input
files are modelled already loaded: the two `loadtxt(..., unpack=True)`
tables as lists of columns, and `resume.dat` as its list of
whitespace-split lines (`map(str.split, open(resume_name))`).

Python dictionary fields become structure fields.  A key that is only
conditionally present is modelled as an `Option`; a key that can be present
with value `None` is modelled as `Option (Option ...)` (with `none` = key
absent, `some none` = key present holding `None`).  Exceptions
(`AssertionError`, `IndexError`, `ValueError`, `KeyError`) become `Except`
errors, named after the specification's error taxonomy.
-/

namespace Multinest

/-- Opaque numeric / token operations used by `snapshot.py`:
`numpy.exp`, `numpy.log`, `x ** 0.5`, and Python's `float(...)` and
`int(...)` applied to whitespace tokens. -/
structure Ops (α : Type) where
  exp : α → α
  log : α → α
  sqrt : α → α
  str2float : String → α
  str2int : String → Int

/-- Error taxonomy of the specification: the code raises `AssertionError` /
`IndexError` / `ValueError` at the corresponding places. -/
inductive Err where
  | inputValidation : Err
  | formatError : Err
  | emptyMode : Err
  | consistencyError : Err
deriving DecidableEq

/-- The three input files, already loaded: `phys_live.points` and
`live.points` as lists of columns (`loadtxt(..., unpack=True)`), and
`resume.dat` as whitespace-split lines. -/
structure Input (α : Type) where
  physLive : List (List α)
  live : List (List α)
  resume : List (List String)
deriving DecidableEq

/-- The global information decoded before the per-mode loops
(`snapshot.py` lines 111-177). -/
structure RawGlobal (α : Type) where
  tol : α
  ln_tol : α
  maxiter : α
  root : String
  ln_max_like : α
  max_like : α
  expected_like : α
  min_chi_squared : α
  n_params : Int
  n_dims : Int
  gen_live : Bool
  n_rejected : Int
  n_like_calls : Int
  n_modes : Int
  n_live : Int
  ln_Z : α
  ln_Z_info : α
  ellipsoidal : Bool
deriving DecidableEq

/-- Per-mode data read by the first per-mode loop (`snapshot.py` lines
185-203).  The code's `else` branch stores `None` under the misspelled
keys `branch_unkown_1` / `branch_unkown_2`; both spellings are therefore
modelled, each as `Option (Option String)` (`none` = key absent,
`some none` = key present with value `None`). -/
structure BranchData where
  branch_number : Int
  branch_unknown_1 : Option (Option String)
  branch_unknown_2 : Option (Option String)
  branch_unkown_1 : Option (Option String)
  branch_unkown_2 : Option (Option String)
deriving DecidableEq

/-- Per-mode data read by the second per-mode loop (`snapshot.py` lines
205-245). -/
structure BodyData (α : Type) where
  stop : Bool
  mode_unknown_1 : String
  mode_unknown_2 : String
  n_live : Int
  vol : α
  ln_Z : α
  ln_Z_info : α
  ceff_unknown : Option String
deriving DecidableEq

/-- The `global` dictionary of a finished snapshot.  `ceff` is `none` when
the key was never set (which happens exactly when `n_modes = 0`). -/
structure GlobalState (α : Type) where
  tol : α
  ln_tol : α
  maxiter : α
  root : String
  ln_max_like : α
  max_like : α
  expected_like : α
  min_chi_squared : α
  n_params : Int
  n_dims : Int
  gen_live : Bool
  n_rejected : Int
  n_like_calls : Int
  n_modes : Int
  n_live : Int
  ln_Z : α
  ln_Z_info : α
  ellipsoidal : Bool
  ceff : Option Bool
  Z : α
  ln_Z_error : α
  Z_error : α
  stop_1b : Bool
  stop_4 : Bool
  stop : Bool
deriving DecidableEq

/-- One mode dictionary of a finished snapshot. -/
structure Mode (α : Type) where
  mode : Nat
  branch_number : Int
  branch_unknown_1 : Option (Option String)
  branch_unknown_2 : Option (Option String)
  branch_unkown_1 : Option (Option String)
  branch_unkown_2 : Option (Option String)
  stop : Bool
  mode_unknown_1 : String
  mode_unknown_2 : String
  n_live : Int
  vol : α
  ln_Z : α
  ln_Z_info : α
  ceff_unknown : Option String
  ln_max_like : α
  max_like : α
  expected_like : α
  ln_min_like : α
  min_chi_squared : α
  Z : α
  ln_Z_error : α
  Z_error : α
  ln_delta : α
  delta : α
  ln_expected_delta : α
  expected_delta : α
  stop_1a : Bool
  stop_1b : Bool
  stop_1 : Bool
  stop_2 : Bool
  stop_3 : Bool
  stop_4 : Bool
deriving DecidableEq

/-- The value returned by `snapshot`: global information plus the modes in
ascending 1-based mode order. -/
structure Snapshot (α : Type) where
  global_ : GlobalState α
  modes : List (Mode α)
deriving DecidableEq

/-- Python negative indexing `l[-k]` on a sequence: defined when
`k ≤ len(l)`, an `IndexError` (`none`) otherwise. -/
def negIdx {β : Type} (l : List β) (k : Nat) : Option β :=
  if k ≤ l.length then l[l.length - k]? else none

variable {α : Type} [LinearOrderedField α]

/-- `snapshot.py` lines 104-177: the argument assertions, the header-shape
check on the first four `resume.dat` records, the statistics read from the
two points tables, and the decoding of the global header. -/
def headerPhase (inp : Input α) (root : String) (tol maxiter : α) (ops : Ops α) :
    Except Err (RawGlobal α) :=
  if 0 < tol then
    if 0 < maxiter then
      if (inp.resume.take 4).map List.length = [1, 4, 2, 1] then
        match negIdx inp.physLive 2 with
        | none => .error .formatError
        | some lnCol =>
          match lnCol with
          | [] => .error .formatError
          | x :: xs =>
            match inp.resume.take 4 with
            | [[gl], [nr, nlc, nm, nl], [lz, lzi], [el]] =>
              if 0 ≤ ops.str2int nr then
                if 0 ≤ ops.str2int nlc then
                  if 0 ≤ ops.str2int nm then
                    if 0 ≤ ops.str2int nl then
                      .ok
                        { tol := tol
                          ln_tol := ops.log tol
                          maxiter := maxiter
                          root := root
                          ln_max_like := xs.foldl max x
                          max_like := ops.exp (xs.foldl max x)
                          expected_like :=
                            (((x :: xs).map ops.exp).foldl (· + ·) 0) /
                              (((x :: xs).length : α))
                          min_chi_squared := -2 * xs.foldl max x
                          n_params := (inp.physLive.length : Int) - 2
                          n_dims := (inp.live.length : Int) - 1
                          gen_live := decide (gl = "T")
                          n_rejected := ops.str2int nr
                          n_like_calls := ops.str2int nlc
                          n_modes := ops.str2int nm
                          n_live := ops.str2int nl
                          ln_Z := ops.str2float lz
                          ln_Z_info := ops.str2float lzi
                          ellipsoidal := decide (el = "T") }
                    else .error .formatError
                  else .error .formatError
                else .error .formatError
              else .error .formatError
            | _ => .error .formatError
      else .error .formatError
    else .error .inputValidation
  else .error .inputValidation

/-- `snapshot.py` lines 185-203: the first per-mode loop, consuming one
length-1 branch-number record per mode and, when the branch number is
nonzero, one following length-2 record.  Returns the branch data in
ascending mode order together with the unconsumed records. -/
def branchPass (ops : Ops α) : Nat → List (List String) →
    Except Err (List BranchData × List (List String))
  | 0, stream => .ok ([], stream)
  | _ + 1, [] => .error .formatError
  | n + 1, r :: s1 =>
    if r.length = 1 then
      if 0 ≤ ops.str2int (r.headD ("")) then
        if ops.str2int (r.headD ("")) ≠ 0 then
          match s1 with
          | [] => .error .formatError
          | r2 :: s2 =>
            if r2.length = 2 then
              match branchPass ops n s2 with
              | .error e => .error e
              | .ok (bs, rest) =>
                .ok (⟨ops.str2int (r.headD ("")), some (some (r2.headD (""))),
                      some (some (r2.getD 1 (""))), none, none⟩ :: bs, rest)
            else .error .formatError
        else
          match branchPass ops n s1 with
          | .error e => .error e
          | .ok (bs, rest) =>
            .ok (⟨ops.str2int (r.headD ("")), none, none, some none, some none⟩
                  :: bs, rest)
      else .error .formatError
    else .error .formatError

/-- The constant-efficiency heuristic of `snapshot.py` line 237:
`bool(modes_resume) and len(modes_resume[0]) == 1`. -/
def ceffGuess (stream : List (List String)) : Bool :=
  !stream.isEmpty && decide ((stream.headD []).length = 1)

/-- `snapshot.py` lines 207-232: the two mandatory body records of one
mode (lengths 4 and 3), with the associated assertions. -/
def bodyOne (ops : Ops α) (stream : List (List String)) :
    Except Err (BodyData α × List (List String)) :=
  match stream with
  | [] => .error .formatError
  | r :: s1 =>
    if r.length = 4 then
      if 0 < ops.str2int (r.getD 3 ("")) then
        match s1 with
        | [] => .error .formatError
        | r2 :: s2 =>
          if r2.length = 3 then
            if 0 ≤ ops.str2float (r2.headD ("")) then
              .ok (⟨decide ((r.headD ("")) = "T"), r.getD 1 (""), r.getD 2 (""),
                    ops.str2int (r.getD 3 ("")), ops.str2float (r2.headD ("")),
                    ops.str2float (r2.getD 1 ("")), ops.str2float (r2.getD 2 ("")),
                    none⟩, s2)
            else .error .formatError
          else .error .formatError
      else .error .formatError
    else .error .formatError

/-- `snapshot.py` lines 205-245: the second per-mode loop.  The third
argument carries the value of the `ceff` key of the global dictionary, or
`none` while the key is still unset; it is set once, right after the first
mode's two body records are consumed, by `ceffGuess` on the remaining
records, and when it is true one further length-1 record is consumed for
every mode. -/
def bodyPass (ops : Ops α) : Nat → List (List String) → Option Bool →
    Except Err (List (BodyData α) × Option Bool × List (List String))
  | 0, stream, c => .ok ([], c, stream)
  | n + 1, stream, c =>
    match bodyOne ops stream with
    | .error e => .error e
    | .ok (bd, s1) =>
      if c.getD (ceffGuess s1) then
        match s1 with
        | [] => .error .formatError
        | r :: s2 =>
          if r.length = 1 then
            match bodyPass ops n s2 (some (c.getD (ceffGuess s1))) with
            | .error e => .error e
            | .ok (bs, c2, rest) =>
              .ok ({ bd with ceff_unknown := some (r.headD ("")) } :: bs, c2, rest)
          else .error .formatError
      else
        match bodyPass ops n s1 (some (c.getD (ceffGuess s1))) with
        | .error e => .error e
        | .ok (bs, c2, rest) => .ok (bd :: bs, c2, rest)

/-- `snapshot.py` line 270: the log-likelihood column of `phys_live.points`
restricted to the points whose mode-index column equals the (1-based)
mode number: `phys_live[:, phys_live[-1] == n_mode][-2]`. -/
def modeLnLike (physLive : List (List α)) (m : Nat) : List α :=
  match negIdx physLive 2, negIdx physLive 1 with
  | some lnCol, some modeCol =>
    ((lnCol.zip modeCol).filter (fun p => decide (p.2 = (m : α)))).map Prod.fst
  | _, _ => []

/-- `snapshot.py` lines 267-292: the derived per-mode quantities.  Returns
`none` when the mode has no matching live points (in which case the code's
`max` raises `ValueError`). -/
def buildMode (ops : Ops α) (tol : α) (g1b g4 : Bool) (nDims : Int)
    (physLive : List (List α)) (m : Nat) (br : BranchData) (bd : BodyData α) :
    Option (Mode α) :=
  match modeLnLike physLive m with
  | [] => none
  | x :: xs =>
    let ln_max_like := xs.foldl max x
    let ln_min_like := xs.foldl min x
    let expected_like :=
      (((x :: xs).map ops.exp).foldl (· + ·) 0) / (((x :: xs).length : α))
    let Z := ops.exp bd.ln_Z
    let ln_Z_error := ops.sqrt (|bd.ln_Z_info| / ((bd.n_live : α)))
    let ln_delta := ops.log bd.vol + ln_max_like - bd.ln_Z
    let delta := ops.exp ln_delta
    let ln_expected_delta := ops.log bd.vol + ops.log expected_like - bd.ln_Z
    let stop_1a := decide (delta < tol)
    let stop_1 := stop_1a && g1b
    let stop_2 := decide (bd.n_live < nDims + 1)
    let stop_3 := decide (ln_max_like - ln_min_like ≤ (1 / 1000 : α))
    some
      { mode := m
        branch_number := br.branch_number
        branch_unknown_1 := br.branch_unknown_1
        branch_unknown_2 := br.branch_unknown_2
        branch_unkown_1 := br.branch_unkown_1
        branch_unkown_2 := br.branch_unkown_2
        stop := bd.stop
        mode_unknown_1 := bd.mode_unknown_1
        mode_unknown_2 := bd.mode_unknown_2
        n_live := bd.n_live
        vol := bd.vol
        ln_Z := bd.ln_Z
        ln_Z_info := bd.ln_Z_info
        ceff_unknown := bd.ceff_unknown
        ln_max_like := ln_max_like
        max_like := ops.exp ln_max_like
        expected_like := expected_like
        ln_min_like := ln_min_like
        min_chi_squared := -2 * ln_max_like
        Z := Z
        ln_Z_error := ln_Z_error
        Z_error := ln_Z_error * Z
        ln_delta := ln_delta
        delta := delta
        ln_expected_delta := ln_expected_delta
        expected_delta := ops.exp ln_expected_delta
        stop_1a := stop_1a
        stop_1b := g1b
        stop_1 := stop_1
        stop_2 := stop_2
        stop_3 := stop_3
        stop_4 := g4 }

/-- `snapshot.py` lines 267-296: one mode's derived quantities followed by
the consistency assertion
`assert mode["stop"] == stop, "Inconsistent convergence criteria!"`. -/
def computeMode (ops : Ops α) (tol : α) (g1b g4 : Bool) (nDims : Int)
    (physLive : List (List α)) (m : Nat) (br : BranchData) (bd : BodyData α) :
    Except Err (Mode α) :=
  match buildMode ops tol g1b g4 nDims physLive m br bd with
  | none => .error .emptyMode
  | some mo =>
    if bd.stop = (mo.stop_1 || mo.stop_2 || mo.stop_3 || mo.stop_4) then .ok mo
    else .error .consistencyError

/-- The per-mode computation loop over all modes, in ascending mode order,
starting at the given 1-based index. -/
def modesLoop (ops : Ops α) (tol : α) (g1b g4 : Bool) (nDims : Int)
    (physLive : List (List α)) :
    Nat → List BranchData → List (BodyData α) → Except Err (List (Mode α))
  | _, [], _ => .ok []
  | _, _ :: _, [] => .error .formatError
  | m, br :: brs, bd :: bds =>
    match computeMode ops tol g1b g4 nDims physLive m br bd with
    | .error e => .error e
    | .ok mo =>
      match modesLoop ops tol g1b g4 nDims physLive (m + 1) brs bds with
      | .error e => .error e
      | .ok ms => .ok (mo :: ms)

/-- `snapshot.py` lines 254-259: the extra global calculations. -/
def globalExtras (ops : Ops α) (raw : RawGlobal α) (ceff : Option Bool)
    (bds : List (BodyData α)) : GlobalState α :=
  { tol := raw.tol
    ln_tol := raw.ln_tol
    maxiter := raw.maxiter
    root := raw.root
    ln_max_like := raw.ln_max_like
    max_like := raw.max_like
    expected_like := raw.expected_like
    min_chi_squared := raw.min_chi_squared
    n_params := raw.n_params
    n_dims := raw.n_dims
    gen_live := raw.gen_live
    n_rejected := raw.n_rejected
    n_like_calls := raw.n_like_calls
    n_modes := raw.n_modes
    n_live := raw.n_live
    ln_Z := raw.ln_Z
    ln_Z_info := raw.ln_Z_info
    ellipsoidal := raw.ellipsoidal
    ceff := ceff
    Z := ops.exp raw.ln_Z
    ln_Z_error := ops.sqrt (|raw.ln_Z_info| / ((raw.n_live : α)))
    Z_error := ops.sqrt (|raw.ln_Z_info| / ((raw.n_live : α))) * ops.exp raw.ln_Z
    stop_1b := decide (50 < raw.n_rejected - raw.n_live)
    stop_4 := decide (raw.maxiter ≤ ((raw.n_rejected : α)))
    stop := bds.all (fun bd => bd.stop) }

/-- The state of the parse after `snapshot.py` line 261: the completed
global dictionary and the two per-mode record lists, just before the final
per-mode calculations. -/
structure Core (α : Type) where
  g : GlobalState α
  branches : List BranchData
  bodies : List (BodyData α)
deriving DecidableEq

/-- `snapshot.py` lines 104-261: everything up to and including the global
extra calculations (and the point where the anomaly warning is emitted). -/
def parseCore (inp : Input α) (root : String) (tol maxiter : α) (ops : Ops α) :
    Except Err (Core α) :=
  match headerPhase inp root tol maxiter ops with
  | .error e => .error e
  | .ok raw =>
    match branchPass ops raw.n_modes.toNat (inp.resume.drop 4) with
    | .error e => .error e
    | .ok (brs, s1) =>
      match bodyPass ops raw.n_modes.toNat s1 none with
      | .error e => .error e
      | .ok (bds, ceff, []) => .ok ⟨globalExtras ops raw ceff bds, brs, bds⟩
      | .ok (_, _, _ :: _) => .error .formatError

/-- The full parse, `snapshot.py`'s `snapshot` function: `parseCore`
followed by the per-mode derived quantities and consistency checks. -/
def snapshot (inp : Input α) (root : String) (tol maxiter : α) (ops : Ops α) :
    Except Err (Snapshot α) :=
  match parseCore inp root tol maxiter ops with
  | .error e => .error e
  | .ok c =>
    match modesLoop ops c.g.tol c.g.stop_1b c.g.stop_4 c.g.n_dims inp.physLive
        1 c.branches c.bodies with
    | .error e => .error e
    | .ok ms => .ok ⟨c.g, ms⟩

/-- Whether the run of `snapshot` emits the non-fatal anomaly warning
`warn("Unusual convergence - very few rejected points")` of
`snapshot.py` lines 260-261 (reached right after the global extras). -/
def warnFires (inp : Input α) (root : String) (tol maxiter : α) (ops : Ops α) :
    Bool :=
  match parseCore inp root tol maxiter ops with
  | .error _ => false
  | .ok c => c.g.stop && !c.g.stop_1b

/-! ## The monitor (`watch.py`) -/

/-- A Python value stored in a mode dictionary, for modelling the
dictionary lookups performed by `watch.py`. -/
inductive PyVal (α : Type) where
  | pint : Int → PyVal α
  | pnum : α → PyVal α
  | pstr : String → PyVal α
  | pbool : Bool → PyVal α
  | pnone : PyVal α
deriving DecidableEq

/-- A conditionally present string key holding either a string or `None`. -/
def optStrVal {α : Type} (o : Option (Option String)) : Option (PyVal α) :=
  o.map (fun v => match v with | some s => .pstr s | none => .pnone)

/-- The dictionary view of a parsed mode: `Mode.item mo k` is `some v` when
key `k` is present in the mode dictionary built by `snapshot.py` with value
`v`, and `none` (a `KeyError` on lookup) otherwise.  The enumeration lists
exactly the keys that `snapshot.py` ever assigns to a mode dictionary. -/
def Mode.item (mo : Mode α) (k : String) : Option (PyVal α) :=
  if k = "mode" then some (.pint (mo.mode : Int))
  else if k = "branch_number" then some (.pint mo.branch_number)
  else if k = "branch_unknown_1" then optStrVal mo.branch_unknown_1
  else if k = "branch_unknown_2" then optStrVal mo.branch_unknown_2
  else if k = "branch_unkown_1" then optStrVal mo.branch_unkown_1
  else if k = "branch_unkown_2" then optStrVal mo.branch_unkown_2
  else if k = "stop" then some (.pbool mo.stop)
  else if k = "mode_unknown_1" then some (.pstr mo.mode_unknown_1)
  else if k = "mode_unknown_2" then some (.pstr mo.mode_unknown_2)
  else if k = "n_live" then some (.pint mo.n_live)
  else if k = "vol" then some (.pnum mo.vol)
  else if k = "ln_Z" then some (.pnum mo.ln_Z)
  else if k = "ln_Z_info" then some (.pnum mo.ln_Z_info)
  else if k = "ceff_unknown" then mo.ceff_unknown.map .pstr
  else if k = "ln_max_like" then some (.pnum mo.ln_max_like)
  else if k = "max_like" then some (.pnum mo.max_like)
  else if k = "expected_like" then some (.pnum mo.expected_like)
  else if k = "ln_min_like" then some (.pnum mo.ln_min_like)
  else if k = "min_chi_squared" then some (.pnum mo.min_chi_squared)
  else if k = "Z" then some (.pnum mo.Z)
  else if k = "ln_Z_error" then some (.pnum mo.ln_Z_error)
  else if k = "Z_error" then some (.pnum mo.Z_error)
  else if k = "ln_delta" then some (.pnum mo.ln_delta)
  else if k = "delta" then some (.pnum mo.delta)
  else if k = "ln_expected_delta" then some (.pnum mo.ln_expected_delta)
  else if k = "expected_delta" then some (.pnum mo.expected_delta)
  else if k = "stop_1a" then some (.pbool mo.stop_1a)
  else if k = "stop_1b" then some (.pbool mo.stop_1b)
  else if k = "stop_1" then some (.pbool mo.stop_1)
  else if k = "stop_2" then some (.pbool mo.stop_2)
  else if k = "stop_3" then some (.pbool mo.stop_3)
  else if k = "stop_4" then some (.pbool mo.stop_4)
  else none

/-- `watch.py` line 65: the list comprehension
`[mode["ln_delta_max"] for mode in list(snap["modes"].values())]`.
A `KeyError` (`Except.error ()`) aborts the comprehension. -/
def monitorExtract (s : Snapshot α) : Except Unit (List (PyVal α)) :=
  s.modes.mapM (fun mo =>
    match mo.item ("ln_delta_max") with
    | some v => .ok v
    | none => .error ())

/-- The monitor's in-memory time series (`watch.py` lines 41-42). -/
structure MonState (α T : Type) where
  time_data : List T
  ln_delta_data : List (List (PyVal α))
deriving DecidableEq

/-- `watch.py` lines 56-66, the handling of one qualifying file-change
event: a failed parse is warned about and skipped; on a successful parse
the snapshot time is recorded and the per-mode `ln_delta_max` values are
looked up.  `Except.error ()` is the uncaught `KeyError` (the try/except
covers only the `snapshot` call), which kills the watch loop. -/
def monitorEvent {T : Type} (t : T) (res : Except Err (Snapshot α))
    (st : MonState α T) : Except Unit (MonState α T) :=
  match res with
  | .error _ => .ok st
  | .ok snap =>
    match monitorExtract snap with
    | .error e => .error e
    | .ok v =>
      .ok ⟨st.time_data ++ [t], st.ln_delta_data ++ [v]⟩

/-- The warm-up bookkeeping of `watch.py` lines 41-75: the recorded
`ln_delta` vectors, the counter `unique_ln_delta_values` and the flag
`WAITING`. -/
structure WatchState (V : Type) where
  data : List V
  uniq : Nat
  waiting : Bool
deriving DecidableEq

/-- The initial monitor state (`watch.py` lines 41-46). -/
def watchInit {V : Type} : WatchState V := ⟨[], 0, true⟩

/-- `watch.py` lines 66-75 for one successful observation `v`: the vector
is appended; while `WAITING`, the counter is incremented when
`ln_delta_data[-2] != ln_delta_data[-1]` (the `IndexError` on a one-element
history is caught and ignored), and `WAITING` is cleared once the counter
reaches 10. -/
def watchStep {V : Type} [DecidableEq V] (s : WatchState V) (v : V) :
    WatchState V :=
  if s.waiting then
    let u :=
      match s.data.getLast? with
      | none => s.uniq
      | some prev => if prev ≠ v then s.uniq + 1 else s.uniq
    ⟨s.data ++ [v], u, decide (u < 10)⟩
  else ⟨s.data ++ [v], s.uniq, false⟩

/-- The monitor state after a sequence of successful observations. -/
def runWatch {V : Type} [DecidableEq V] (xs : List V) : WatchState V :=
  xs.foldl watchStep watchInit

/-- One step of counting adjacent distinct observations: the accumulator
holds the previous observation (if any) and the count so far. -/
def dcStep {V : Type} [DecidableEq V] : Option V × Nat → V → Option V × Nat
  | (none, c), v => (some v, c)
  | (some p, c), v => (some v, if p ≠ v then c + 1 else c)

/-- The number of observations in the sequence that differ from their
immediate predecessor — the quantity the monitor's
`unique_ln_delta_values` counter tracks. -/
def distinctCount {V : Type} [DecidableEq V] (xs : List V) : Nat :=
  (xs.foldl dcStep (none, 0)).2

/-! ## Concrete fixtures -/

/-- Decidable equality for `Except`, used to evaluate the parser on the
concrete fixtures. -/
def exceptDecEq {ε β : Type} [DecidableEq ε] [DecidableEq β] :
    DecidableEq (Except ε β) := fun a b =>
  match a, b with
  | .ok x, .ok y =>
    if h : x = y then .isTrue (by rw [h])
    else .isFalse (by intro hc; injection hc; exact h (by assumption))
  | .error x, .error y =>
    if h : x = y then .isTrue (by rw [h])
    else .isFalse (by intro hc; injection hc; exact h (by assumption))
  | .ok _, .error _ => .isFalse (by intro hc; exact Except.noConfusion hc)
  | .error _, .ok _ => .isFalse (by intro hc; exact Except.noConfusion hc)

instance {ε β : Type} [DecidableEq ε] [DecidableEq β] :
    DecidableEq (Except ε β) := exceptDecEq

/-- Reads a token of decimal digits as a natural number (enough for the
fixtures, whose tokens are all plain decimal numerals). -/
def tokNat : List Char → Nat → Nat
  | [], acc => acc
  | c :: cs, acc => tokNat cs (acc * 10 + (c.toNat - 48))

/-- Concrete operations over `ℚ` used by the fixtures: the transcendental
functions are irrelevant to every claim, so the identity stands in for
them; the token conversions read decimal numerals. -/
def exOps : Ops ℚ :=
  { exp := id
    log := id
    sqrt := id
    str2float := fun s => ((tokNat s.toList 0 : Nat) : ℚ)
    str2int := fun s => ((tokNat s.toList 0 : Nat) : Int) }

/-- A valid fixture: two physical live points, both in mode 1, with two
columns (log-likelihood and mode index); a `resume.dat` with one mode,
`branch_number = 0`, declared mode stop `T`, and no constant-efficiency
records. -/
def exInput : Input ℚ :=
  { physLive := [[0, 0], [1, 1]]
    live := [[0, 0], [1, 1]]
    resume :=
      [["T"], ["100", "5", "1", "2"], ["0", "0"], ["F"],
       ["0"],
       ["T", "a", "b", "2"], ["1", "0", "0"]] }

/-- The same fixture with a trailing length-1 record after the mode body,
which the constant-efficiency heuristic detects. -/
def exInputCeff : Input ℚ :=
  { physLive := [[0, 0], [1, 1]]
    live := [[0, 0], [1, 1]]
    resume :=
      [["T"], ["100", "5", "1", "2"], ["0", "0"], ["F"],
       ["0"],
       ["T", "a", "b", "2"], ["1", "0", "0"], ["9"]] }

/-- A fixture whose `resume.dat` header has record lengths `[1]` instead of
`[1, 4, 2, 1]`. -/
def badInput : Input ℚ :=
  { physLive := [[0, 0], [1, 1]]
    live := [[0, 0], [1, 1]]
    resume := [["T"]] }

/-- The snapshot that `snapshot exInput "" 1 1000 exOps` evaluates to. -/
def exSnap : Snapshot ℚ :=
  { global_ :=
      { tol := 1
        ln_tol := 1
        maxiter := 1000
        root := ""
        ln_max_like := 0
        max_like := 0
        expected_like := 0
        min_chi_squared := 0
        n_params := 0
        n_dims := 1
        gen_live := true
        n_rejected := 100
        n_like_calls := 5
        n_modes := 1
        n_live := 2
        ln_Z := 0
        ln_Z_info := 0
        ellipsoidal := false
        ceff := some false
        Z := 0
        ln_Z_error := 0
        Z_error := 0
        stop_1b := true
        stop_4 := false
        stop := true }
    modes :=
      [{ mode := 1
         branch_number := 0
         branch_unknown_1 := none
         branch_unknown_2 := none
         branch_unkown_1 := some none
         branch_unkown_2 := some none
         stop := true
         mode_unknown_1 := "a"
         mode_unknown_2 := "b"
         n_live := 2
         vol := 1
         ln_Z := 0
         ln_Z_info := 0
         ceff_unknown := none
         ln_max_like := 0
         max_like := 0
         expected_like := 0
         ln_min_like := 0
         min_chi_squared := 0
         Z := 0
         ln_Z_error := 0
         Z_error := 0
         ln_delta := 1
         delta := 1
         ln_expected_delta := 1
         expected_delta := 1
         stop_1a := false
         stop_1b := true
         stop_1 := false
         stop_2 := false
         stop_3 := true
         stop_4 := false }] }

/-- The fixture parses successfully, to the snapshot written out above. -/
theorem exSnap_eval : snapshot exInput ("") 1 1000 exOps = .ok exSnap := by
  with_unfolding_all rfl

/-! ## Structural lemmas about the parser -/

/-- Destructuring a successful `snapshot` run into its two stages. -/
theorem snapshot_ok_elim {inp : Input α} {root : String} {tol maxiter : α}
    {ops : Ops α} {s : Snapshot α}
    (h : snapshot inp root tol maxiter ops = .ok s) :
    ∃ c ms, parseCore inp root tol maxiter ops = .ok c ∧
      modesLoop ops c.g.tol c.g.stop_1b c.g.stop_4 c.g.n_dims inp.physLive 1
        c.branches c.bodies = .ok ms ∧ s = ⟨c.g, ms⟩ := by
  unfold snapshot at h
  split at h
  · exact Except.noConfusion h
  · rename_i c hp
    split at h
    · exact Except.noConfusion h
    · rename_i ms hm
      injection h with h
      exact ⟨c, ms, hp, hm, h.symm⟩

/-- Destructuring a successful `parseCore` run. -/
theorem parseCore_ok_elim {inp : Input α} {root : String} {tol maxiter : α}
    {ops : Ops α} {c : Core α}
    (h : parseCore inp root tol maxiter ops = .ok c) :
    ∃ raw brs s1 bds ceff,
      headerPhase inp root tol maxiter ops = .ok raw ∧
      branchPass ops raw.n_modes.toNat (inp.resume.drop 4) = .ok (brs, s1) ∧
      bodyPass (α := α) ops raw.n_modes.toNat s1 none = .ok (bds, ceff, []) ∧
      c = ⟨globalExtras ops raw ceff bds, brs, bds⟩ := by
  unfold parseCore at h
  split at h
  · exact Except.noConfusion h
  · rename_i raw hh
    split at h
    · exact Except.noConfusion h
    · rename_i brs s1 hb
      split at h
      · exact Except.noConfusion h
      · rename_i bds ceff hd
        injection h with h
        exact ⟨raw, brs, s1, bds, ceff, hh, hb, hd, h.symm⟩
      · exact Except.noConfusion h

/-- The field identities of a mode built by `buildMode`. -/
theorem buildMode_some {ops : Ops α} {tol : α} {g1b g4 : Bool} {nDims : Int}
    {physLive : List (List α)} {m : Nat} {br : BranchData} {bd : BodyData α}
    {mo : Mode α}
    (h : buildMode ops tol g1b g4 nDims physLive m br bd = some mo) :
    mo.stop = bd.stop ∧
    mo.stop_1a = decide (mo.delta < tol) ∧
    mo.stop_1b = g1b ∧
    mo.stop_1 = (mo.stop_1a && mo.stop_1b) ∧
    mo.stop_2 = decide (mo.n_live < nDims + 1) ∧
    mo.stop_3 = decide (mo.ln_max_like - mo.ln_min_like ≤ (1 / 1000 : α)) ∧
    mo.stop_4 = g4 ∧
    mo.Z = ops.exp mo.ln_Z ∧
    mo.ln_Z_error = ops.sqrt (|mo.ln_Z_info| / ((mo.n_live : α))) ∧
    mo.Z_error = mo.ln_Z_error * mo.Z ∧
    mo.min_chi_squared = -2 * mo.ln_max_like := by
  unfold buildMode at h
  split at h
  · exact Option.noConfusion h
  · injection h with h
    subst h
    exact ⟨rfl, rfl, rfl, rfl, rfl, rfl, rfl, rfl, rfl, rfl, rfl⟩

/-- A mode returned by `computeMode` satisfies the recomputed stopping
criteria, and its declared flag agrees with their disjunction. -/
theorem computeMode_ok {ops : Ops α} {tol : α} {g1b g4 : Bool} {nDims : Int}
    {physLive : List (List α)} {m : Nat} {br : BranchData} {bd : BodyData α}
    {mo : Mode α}
    (h : computeMode ops tol g1b g4 nDims physLive m br bd = .ok mo) :
    mo.stop = (mo.stop_1 || mo.stop_2 || mo.stop_3 || mo.stop_4) ∧
    mo.stop = bd.stop ∧
    mo.stop_1a = decide (mo.delta < tol) ∧
    mo.stop_1b = g1b ∧
    mo.stop_1 = (mo.stop_1a && mo.stop_1b) ∧
    mo.stop_2 = decide (mo.n_live < nDims + 1) ∧
    mo.stop_3 = decide (mo.ln_max_like - mo.ln_min_like ≤ (1 / 1000 : α)) ∧
    mo.stop_4 = g4 ∧
    mo.Z = ops.exp mo.ln_Z ∧
    mo.ln_Z_error = ops.sqrt (|mo.ln_Z_info| / ((mo.n_live : α))) ∧
    mo.Z_error = mo.ln_Z_error * mo.Z ∧
    mo.min_chi_squared = -2 * mo.ln_max_like := by
  unfold computeMode at h
  split at h
  · exact Except.noConfusion h
  · rename_i mo0 hbm
    split at h
    · rename_i hstop
      injection h with h
      subst h
      obtain ⟨h1, h2, h3, h4, h5, h6, h7, h8, h9, h10, h11⟩ := buildMode_some hbm
      exact ⟨h1.trans (hstop.symm ▸ rfl), h1, h2, h3, h4, h5, h6, h7, h8, h9, h10, h11⟩
    · exact Except.noConfusion h

/-- `computeMode` fails with a `ConsistencyError` exactly when the declared
stop flag disagrees with the recomputed combined predicate. -/
theorem computeMode_inconsistent {ops : Ops α} {tol : α} {g1b g4 : Bool}
    {nDims : Int} {physLive : List (List α)} {m : Nat} {br : BranchData}
    {bd : BodyData α} {mo : Mode α}
    (h : buildMode ops tol g1b g4 nDims physLive m br bd = some mo)
    (hne : bd.stop ≠ (mo.stop_1 || mo.stop_2 || mo.stop_3 || mo.stop_4)) :
    computeMode ops tol g1b g4 nDims physLive m br bd = .error .consistencyError := by
  unfold computeMode
  rw [h]
  exact if_neg hne

/-- Every mode of a successful `modesLoop` run comes from a successful
`computeMode` run. -/
theorem modesLoop_mem {ops : Ops α} {tol : α} {g1b g4 : Bool} {nDims : Int}
    {physLive : List (List α)} :
    ∀ {m : Nat} {brs : List BranchData} {bds : List (BodyData α)}
      {ms : List (Mode α)},
      modesLoop ops tol g1b g4 nDims physLive m brs bds = .ok ms →
      ∀ mo ∈ ms, ∃ k br bd,
        computeMode ops tol g1b g4 nDims physLive k br bd = .ok mo := by
  intro m brs
  induction brs generalizing m with
  | nil =>
    intro bds ms h mo hmo
    unfold modesLoop at h
    injection h with h
    subst h
    exact absurd hmo (List.not_mem_nil mo)
  | cons br brs ih =>
    intro bds ms h mo hmo
    cases bds with
    | nil => exact Except.noConfusion h
    | cons bd bds =>
      unfold modesLoop at h
      split at h
      · exact Except.noConfusion h
      · rename_i mo0 hc
        split at h
        · exact Except.noConfusion h
        · rename_i ms0 hrec
          injection h with h
          subst h
          rcases List.mem_cons.mp hmo with hmo | hmo
          · exact ⟨m, br, bd, hmo ▸ hc⟩
          · exact ih hrec mo hmo

/-- `modesLoop` preserves the declared stop flags, position by position. -/
theorem modesLoop_stop_map {ops : Ops α} {tol : α} {g1b g4 : Bool}
    {nDims : Int} {physLive : List (List α)} :
    ∀ {m : Nat} {brs : List BranchData} {bds : List (BodyData α)}
      {ms : List (Mode α)},
      brs.length = bds.length →
      modesLoop ops tol g1b g4 nDims physLive m brs bds = .ok ms →
      ms.all (fun mo => mo.stop) = bds.all (fun bd => bd.stop) := by
  intro m brs
  induction brs generalizing m with
  | nil =>
    intro bds ms hlen h
    cases bds with
    | nil =>
      unfold modesLoop at h
      injection h with h
      subst h
      rfl
    | cons bd bds => exact absurd hlen (by simp)
  | cons br brs ih =>
    intro bds ms hlen h
    cases bds with
    | nil => exact Except.noConfusion h
    | cons bd bds =>
      unfold modesLoop at h
      split at h
      · exact Except.noConfusion h
      · rename_i mo0 hc
        split at h
        · exact Except.noConfusion h
        · rename_i ms0 hrec
          injection h with h
          subst h
          have hlen2 : brs.length = bds.length := by
            simpa using hlen
          have hstop : mo0.stop = bd.stop := (computeMode_ok hc).2.1
          simp [List.all_cons, hstop, ih hlen2 hrec]

/-- A successful `branchPass` returns one `BranchData` per mode. -/
theorem branchPass_length {ops : Ops α} :
    ∀ {n : Nat} {stream : List (List String)} {brs : List BranchData}
      {rest : List (List String)},
      branchPass (α := α) ops n stream = .ok (brs, rest) → brs.length = n := by
  intro n
  induction n with
  | zero =>
    intro stream brs rest h
    unfold branchPass at h
    injection h with h
    rw [Prod.mk.injEq] at h
    obtain ⟨h1, h2⟩ := h
    subst h1
    rfl
  | succ n ih =>
    intro stream brs rest h
    cases stream with
    | nil => exact Except.noConfusion h
    | cons r s1 =>
      unfold branchPass at h
      repeat' split at h
      all_goals try exact Except.noConfusion h
      all_goals
        injection h with h
        rw [Prod.mk.injEq] at h
        obtain ⟨h1, h2⟩ := h
        subst h1
        simp [ih (by assumption)]

/-- A successful `bodyPass` returns one `BodyData` per mode. -/
theorem bodyPass_length {ops : Ops α} :
    ∀ {n : Nat} {stream : List (List String)} {c : Option Bool}
      {bds : List (BodyData α)} {c2 : Option Bool} {rest : List (List String)},
      bodyPass (α := α) ops n stream c = .ok (bds, c2, rest) → bds.length = n := by
  intro n
  induction n with
  | zero =>
    intro stream c bds c2 rest h
    unfold bodyPass at h
    injection h with h
    rw [Prod.mk.injEq, Prod.mk.injEq] at h
    obtain ⟨h1, h2, h3⟩ := h
    subst h1
    rfl
  | succ n ih =>
    intro stream c bds c2 rest h
    unfold bodyPass at h
    repeat' split at h
    all_goals try exact Except.noConfusion h
    all_goals
      injection h with h
      rw [Prod.mk.injEq, Prod.mk.injEq] at h
      obtain ⟨h1, h2, h3⟩ := h
      subst h1
      simp [ih (by assumption)]

/-- The raw global state of a successful `headerPhase` run satisfies the
`min_chi_squared = -2 * ln_max_like` identity of `snapshot.py` line 143. -/
theorem headerPhase_min_chi_squared {inp : Input α} {root : String}
    {tol maxiter : α} {ops : Ops α} {raw : RawGlobal α}
    (h : headerPhase inp root tol maxiter ops = .ok raw) :
    raw.min_chi_squared = -2 * raw.ln_max_like := by
  unfold headerPhase at h
  repeat' split at h
  all_goals try exact Except.noConfusion h
  all_goals
    injection h with h
    subst h
    rfl

/-- A successful `bodyOne` consumes exactly two records. -/
theorem bodyOne_length {ops : Ops α} {stream : List (List String)}
    {bd : BodyData α} {s1 : List (List String)}
    (h : bodyOne ops stream = .ok (bd, s1)) : stream.length = s1.length + 2 := by
  unfold bodyOne at h
  repeat' split at h
  all_goals try exact Except.noConfusion h
  all_goals
    injection h with h
    rw [Prod.mk.injEq] at h
    obtain ⟨h1, h2⟩ := h
    subst h2
    simp

/-- Once the `ceff` key is set, `bodyPass` returns it unchanged. -/
theorem bodyPass_some_ceff {ops : Ops α} :
    ∀ {n : Nat} {stream : List (List String)} {b : Bool}
      {l : List (BodyData α)} {c2 : Option Bool} {rest : List (List String)},
      bodyPass (α := α) ops n stream (some b) = .ok (l, c2, rest) → c2 = some b := by
  intro n
  induction n with
  | zero =>
    intro stream b l c2 rest h
    unfold bodyPass at h
    injection h with h
    rw [Prod.mk.injEq, Prod.mk.injEq] at h
    exact h.2.1.symm
  | succ n ih =>
    intro stream b l c2 rest h
    unfold bodyPass at h
    repeat' split at h
    all_goals try exact Except.noConfusion h
    all_goals
      injection h with h
      rw [Prod.mk.injEq, Prod.mk.injEq] at h
      obtain ⟨h1, h2, h3⟩ := h
      subst h2
      simpa using ih (by assumption)

/-- With the `ceff` key already set to `b`, `bodyPass` consumes exactly
`3` records per mode when `b` is true and exactly `2` when it is false. -/
theorem bodyPass_some_length {ops : Ops α} :
    ∀ {n : Nat} {stream : List (List String)} {b : Bool}
      {l : List (BodyData α)} {c2 : Option Bool} {rest : List (List String)},
      bodyPass (α := α) ops n stream (some b) = .ok (l, c2, rest) →
      stream.length = (if b then 3 else 2) * n + rest.length := by
  intro n
  induction n with
  | zero =>
    intro stream b l c2 rest h
    unfold bodyPass at h
    injection h with h
    rw [Prod.mk.injEq, Prod.mk.injEq] at h
    obtain ⟨h1, h2, h3⟩ := h
    subst h3
    simp
  | succ n ih =>
    intro stream b l c2 rest h
    unfold bodyPass at h
    split at h
    · exact Except.noConfusion h
    · rename_i bd s1 hone
      have hlen1 := bodyOne_length hone
      simp only [Option.getD_some] at h
      repeat' split at h
      all_goals try exact Except.noConfusion h
      all_goals
        injection h with h
        rw [Prod.mk.injEq, Prod.mk.injEq] at h
        obtain ⟨h1, h2, h3⟩ := h
        subst h3
        have hrec := ih (by assumption)
        simp_all
        omega

/-- The `ceff` flag returned by a successful `bodyPass` that starts with
the key unset is determined by `ceffGuess` on the records remaining right
after the first mode's two body records. -/
theorem bodyPass_none_ceff {ops : Ops α} {n : Nat}
    {stream s1 : List (List String)} {bd : BodyData α}
    {l : List (BodyData α)} {c2 : Option Bool} {rest : List (List String)}
    (h1 : bodyOne ops stream = .ok (bd, s1))
    (h2 : bodyPass (α := α) ops (n + 1) stream none = .ok (l, c2, rest)) :
    c2 = some (ceffGuess s1) := by
  unfold bodyPass at h2
  simp only [h1, Option.getD_none] at h2
  repeat' split at h2
  all_goals try exact Except.noConfusion h2
  all_goals
    injection h2 with h2
    rw [Prod.mk.injEq, Prod.mk.injEq] at h2
    obtain ⟨g1, g2, g3⟩ := h2
    subst g2
    simpa using bodyPass_some_ceff (by assumption)

/-- Record consumption of a successful `bodyPass` started with the `ceff`
key unset: once the returned flag is `b`, exactly `3` records were
consumed per mode when `b` is true, and exactly `2` when it is false. -/
theorem bodyPass_none_length {ops : Ops α} :
    ∀ {n : Nat} {stream : List (List String)} {b : Bool}
      {l : List (BodyData α)} {rest : List (List String)},
      bodyPass (α := α) ops n stream none = .ok (l, some b, rest) →
      stream.length = (if b then 3 else 2) * n + rest.length := by
  intro n
  cases n with
  | zero =>
    intro stream b l rest h
    unfold bodyPass at h
    injection h with h
    rw [Prod.mk.injEq, Prod.mk.injEq] at h
    exact Option.noConfusion h.2.1
  | succ n =>
    intro stream b l rest h
    unfold bodyPass at h
    split at h
    · exact Except.noConfusion h
    · rename_i bd s1 hone
      have hlen1 := bodyOne_length hone
      simp only [Option.getD_none] at h
      repeat' split at h
      all_goals try exact Except.noConfusion h
      all_goals
        injection h with h
        rw [Prod.mk.injEq, Prod.mk.injEq] at h
        obtain ⟨h1, h2, h3⟩ := h
        subst h3
        have hc := bodyPass_some_ceff (by assumption)
        rw [hc] at h2
        injection h2 with h2
        subst h2
        have hrec := bodyPass_some_length (by assumption)
        simp_all
        omega

/-! ## Lemmas about the monitor warm-up -/

/-- The invariant connecting a monitor fold with the distinct-count fold:
the recorded history's last element matches the count accumulator's, and
the waiting flag tracks whether fewer than 10 distinct observations have
been seen. -/
theorem runWatch_aux {V : Type} [DecidableEq V] :
    ∀ (xs : List V) (s : WatchState V) (acc : Option V × Nat),
      s.data.getLast? = acc.1 →
      (s.waiting = true → s.uniq = acc.2 ∧ acc.2 < 10) →
      (s.waiting = false → 10 ≤ acc.2) →
      ((xs.foldl watchStep s).data.getLast? = (xs.foldl dcStep acc).1 ∧
        ((xs.foldl watchStep s).waiting = true →
          (xs.foldl watchStep s).uniq = (xs.foldl dcStep acc).2 ∧
            (xs.foldl dcStep acc).2 < 10) ∧
        ((xs.foldl watchStep s).waiting = false →
          10 ≤ (xs.foldl dcStep acc).2)) := by
  intro xs
  induction xs with
  | nil => intro s acc h1 h2 h3; exact ⟨h1, h2, h3⟩
  | cons v xs ih =>
    intro s acc h1 h2 h3
    simp only [List.foldl_cons]
    obtain ⟨pr, cnt⟩ := acc
    simp only at h1 h2 h3
    apply ih
    · cases hw : s.waiting <;> cases pr <;>
        simp [watchStep, dcStep, hw, h1]
    · intro hw2
      cases hw : s.waiting with
      | false => simp [watchStep, hw] at hw2
      | true =>
        obtain ⟨hu, hlt⟩ := h2 hw
        cases pr with
        | none =>
          simp only [dcStep]
          simp [watchStep, dcStep, hw, h1] at hw2 ⊢
          omega
        | some p =>
          by_cases hpv : p = v
          · subst hpv
            simp only [dcStep]
            simp [watchStep, dcStep, hw, h1] at hw2 ⊢
            omega
          · simp only [dcStep]
            simp [watchStep, dcStep, hw, h1, hpv] at hw2 ⊢
            (try split) <;> omega
    · intro hw2
      cases hw : s.waiting with
      | true =>
        obtain ⟨hu, hlt⟩ := h2 hw
        cases pr with
        | none =>
          simp only [dcStep]
          simp [watchStep, hw, h1] at hw2
          omega
        | some p =>
          by_cases hpv : p = v
          · subst hpv
            simp only [dcStep]
            simp [watchStep, hw, h1] at hw2
            omega
          · simp only [dcStep]
            simp [watchStep, hw, h1, hpv] at hw2
            (try split) <;> omega
      | false =>
        have h10 := h3 hw
        cases pr with
        | none => simpa [dcStep] using h10
        | some p =>
          simp only [dcStep]
          split <;> simp <;> omega

/-- The monitor is waiting after a sequence of observations exactly while
fewer than 10 of them differed from their immediate predecessor. -/
theorem runWatch_waiting {V : Type} [DecidableEq V] (xs : List V) :
    (runWatch xs).waiting = decide (distinctCount xs < 10) := by
  have h := runWatch_aux xs watchInit (none, 0) rfl
    (fun _ => ⟨rfl, by omega⟩) (fun hf => by simp [watchInit] at hf)
  obtain ⟨h1, h2, h3⟩ := h
  unfold runWatch distinctCount
  cases hw : (List.foldl watchStep watchInit xs).waiting with
  | true =>
    obtain ⟨hu, hlt⟩ := h2 hw
    simp [hlt]
  | false =>
    have h10 := h3 hw
    simp
    omega

/-- Folding the distinct-count step over a constant list never increments
the count. -/
theorem dcStep_const {V : Type} [DecidableEq V] :
    ∀ (xs : List V) (c : V) (k : Nat), (∀ a ∈ xs, a = c) →
      xs.foldl dcStep (some c, k) = (some c, k) := by
  intro xs
  induction xs with
  | nil => intro c k _; rfl
  | cons a xs ih =>
    intro c k hall
    have ha : a = c := hall a (List.mem_cons_self a xs)
    subst ha
    simp only [List.foldl_cons, dcStep, ne_eq, not_true_eq_false, if_false]
    exact ih a k (fun x hx => hall x (List.mem_cons_of_mem a hx))

/-- A list whose elements are all pairwise equal has no distinct
observations. -/
theorem distinctCount_const {V : Type} [DecidableEq V] (xs : List V)
    (hall : ∀ a ∈ xs, ∀ b ∈ xs, a = b) : distinctCount xs = 0 := by
  cases xs with
  | nil => rfl
  | cons a xs =>
    unfold distinctCount
    simp only [List.foldl_cons, dcStep]
    rw [dcStep_const xs a 0
      (fun x hx => hall x (List.mem_cons_of_mem a hx) a (List.mem_cons_self a xs))]

/-! ## The claims -/

/-- C1: in every snapshot that `snapshot` returns, every mode's
scan-declared `stop` flag equals the independently recomputed combined
predicate `stop_1 OR stop_2 OR stop_3 OR stop_4`; and whenever the
declared flag disagrees with the recomputed predicate for a mode, the
per-mode computation fails with `ConsistencyError`, so no snapshot is
returned. -/
theorem snapshot_stop_consistency :
    (∀ (inp : Input α) (root : String) (tol maxiter : α) (ops : Ops α)
        (s : Snapshot α), snapshot inp root tol maxiter ops = .ok s →
        s.modes.all (fun mo =>
          mo.stop == (mo.stop_1 || mo.stop_2 || mo.stop_3 || mo.stop_4)) = true)
  ∧ (∀ (ops : Ops α) (tol : α) (g1b g4 : Bool) (nDims : Int)
        (physLive : List (List α)) (m : Nat) (br : BranchData)
        (bd : BodyData α) (mo : Mode α),
        buildMode ops tol g1b g4 nDims physLive m br bd = some mo →
        bd.stop ≠ (mo.stop_1 || mo.stop_2 || mo.stop_3 || mo.stop_4) →
        computeMode ops tol g1b g4 nDims physLive m br bd =
          .error .consistencyError) := by
  constructor
  · intro inp root tol maxiter ops s h
    obtain ⟨c, ms, hp, hm, hs⟩ := snapshot_ok_elim h
    subst hs
    rw [List.all_eq_true]
    intro mo hmo
    obtain ⟨k, br, bd, hc⟩ := modesLoop_mem hm mo hmo
    simp [(computeMode_ok hc).1]
  · intro ops tol g1b g4 nDims physLive m br bd mo hbm hne
    exact computeMode_inconsistent hbm hne

/-- Witness for C1: the fixture's snapshot satisfies the cross-check. -/
theorem snapshot_stop_consistency_witness :
    exSnap.modes.all (fun mo =>
      mo.stop == (mo.stop_1 || mo.stop_2 || mo.stop_3 || mo.stop_4)) = true :=
  snapshot_stop_consistency.1 exInput ("") 1 1000 exOps exSnap exSnap_eval

/-- C2: in every successfully returned snapshot, the global flags satisfy
`stop_1b = (n_rejected - n_live > 50)` and `stop_4 = (n_rejected >=
maxiter)`, and every mode satisfies `stop_1b = global stop_1b`,
`stop_4 = global stop_4`, `stop_1a = (delta < tol)`,
`stop_1 = stop_1a AND stop_1b`, `stop_2 = (n_live < n_dims + 1)` and
`stop_3 = (ln_max_like - ln_min_like <= 1E-3)`. -/
theorem snapshot_stop_flag_values (inp : Input α) (root : String)
    (tol maxiter : α) (ops : Ops α) (s : Snapshot α)
    (h : snapshot inp root tol maxiter ops = .ok s) :
    s.global_.stop_1b = decide (50 < s.global_.n_rejected - s.global_.n_live) ∧
    s.global_.stop_4 =
      decide (s.global_.maxiter ≤ ((s.global_.n_rejected : α))) ∧
    s.modes.all (fun mo =>
      mo.stop_1b == s.global_.stop_1b && mo.stop_4 == s.global_.stop_4 &&
      mo.stop_1a == decide (mo.delta < s.global_.tol) &&
      mo.stop_1 == (mo.stop_1a && mo.stop_1b) &&
      mo.stop_2 == decide (mo.n_live < s.global_.n_dims + 1) &&
      mo.stop_3 == decide (mo.ln_max_like - mo.ln_min_like ≤ (1 / 1000 : α)))
      = true := by
  obtain ⟨c, ms, hp, hm, hs⟩ := snapshot_ok_elim h
  subst hs
  obtain ⟨raw, brs, s1, bds, ceff, hh, hb, hd, hc⟩ := parseCore_ok_elim hp
  subst hc
  refine ⟨rfl, rfl, ?_⟩
  rw [List.all_eq_true]
  intro mo hmo
  obtain ⟨k, br, bd, hcm⟩ := modesLoop_mem hm mo hmo
  obtain ⟨_, _, h1a, h1b, h1, h2, h3, h4, _, _, _, _⟩ := computeMode_ok hcm
  simp [h1a, h1b, h1, h2, h3, h4]

/-- Witness for C2: the fixture's snapshot satisfies all flag identities. -/
theorem snapshot_stop_flag_values_witness :
    exSnap.global_.stop_1b =
      decide (50 < exSnap.global_.n_rejected - exSnap.global_.n_live) ∧
    exSnap.global_.stop_4 =
      decide (exSnap.global_.maxiter ≤ ((exSnap.global_.n_rejected : ℚ))) ∧
    exSnap.modes.all (fun mo =>
      mo.stop_1b == exSnap.global_.stop_1b && mo.stop_4 == exSnap.global_.stop_4 &&
      mo.stop_1a == decide (mo.delta < exSnap.global_.tol) &&
      mo.stop_1 == (mo.stop_1a && mo.stop_1b) &&
      mo.stop_2 == decide (mo.n_live < exSnap.global_.n_dims + 1) &&
      mo.stop_3 == decide (mo.ln_max_like - mo.ln_min_like ≤ (1 / 1000 : ℚ)))
      = true :=
  snapshot_stop_flag_values exInput ("") 1 1000 exOps exSnap exSnap_eval

/-- C3: in every successfully returned snapshot, the global `stop` is the
AND over all modes' declared `stop` flags; the non-fatal anomaly warning
fires exactly when global `stop` holds while global `stop_1b` does not,
and the snapshot is still returned successfully in that situation. -/
theorem snapshot_global_stop_warning (inp : Input α) (root : String)
    (tol maxiter : α) (ops : Ops α) (s : Snapshot α)
    (h : snapshot inp root tol maxiter ops = .ok s) :
    s.global_.stop = s.modes.all (fun mo => mo.stop) ∧
    warnFires inp root tol maxiter ops =
      (s.global_.stop && !s.global_.stop_1b) := by
  obtain ⟨c, ms, hp, hm, hs⟩ := snapshot_ok_elim h
  subst hs
  constructor
  · obtain ⟨raw, brs, s1, bds, ceff, hh, hb, hd, hc⟩ := parseCore_ok_elim hp
    subst hc
    have hlen : brs.length = bds.length := by
      rw [branchPass_length hb, bodyPass_length hd]
    exact (modesLoop_stop_map hlen hm).symm
  · unfold warnFires
    simp only [hp]

/-- Witness for C3: the fixture's snapshot satisfies both properties. -/
theorem snapshot_global_stop_warning_witness :
    exSnap.global_.stop = exSnap.modes.all (fun mo => mo.stop) ∧
    warnFires exInput ("") 1 1000 exOps =
      (exSnap.global_.stop && !exSnap.global_.stop_1b) :=
  snapshot_global_stop_warning exInput ("") 1 1000 exOps exSnap exSnap_eval

/-- C4: in every successfully returned snapshot, `Z = exp(ln_Z)`,
`ln_Z_error = sqrt(|ln_Z_info| / n_live)` and `Z_error = ln_Z_error * Z`
hold exactly, for the global state and for every mode. -/
theorem snapshot_evidence_identities (inp : Input α) (root : String)
    (tol maxiter : α) (ops : Ops α) (s : Snapshot α)
    (h : snapshot inp root tol maxiter ops = .ok s) :
    s.global_.Z = ops.exp s.global_.ln_Z ∧
    s.global_.ln_Z_error =
      ops.sqrt (|s.global_.ln_Z_info| / ((s.global_.n_live : α))) ∧
    s.global_.Z_error = s.global_.ln_Z_error * s.global_.Z ∧
    s.modes.all (fun mo =>
      decide (mo.Z = ops.exp mo.ln_Z) &&
      decide (mo.ln_Z_error = ops.sqrt (|mo.ln_Z_info| / ((mo.n_live : α)))) &&
      decide (mo.Z_error = mo.ln_Z_error * mo.Z)) = true := by
  obtain ⟨c, ms, hp, hm, hs⟩ := snapshot_ok_elim h
  subst hs
  obtain ⟨raw, brs, s1, bds, ceff, hh, hb, hd, hc⟩ := parseCore_ok_elim hp
  subst hc
  refine ⟨rfl, rfl, rfl, ?_⟩
  rw [List.all_eq_true]
  intro mo hmo
  obtain ⟨k, br, bd, hcm⟩ := modesLoop_mem hm mo hmo
  obtain ⟨_, _, _, _, _, _, _, _, hZ, hlnZe, hZe, _⟩ := computeMode_ok hcm
  simp [hZ, hlnZe, hZe]

/-- Witness for C4: the fixture's snapshot satisfies the identities. -/
theorem snapshot_evidence_identities_witness :
    exSnap.global_.Z = exOps.exp exSnap.global_.ln_Z ∧
    exSnap.global_.ln_Z_error =
      exOps.sqrt (|exSnap.global_.ln_Z_info| / ((exSnap.global_.n_live : ℚ))) ∧
    exSnap.global_.Z_error = exSnap.global_.ln_Z_error * exSnap.global_.Z ∧
    exSnap.modes.all (fun mo =>
      decide (mo.Z = exOps.exp mo.ln_Z) &&
      decide (mo.ln_Z_error = exOps.sqrt (|mo.ln_Z_info| / ((mo.n_live : ℚ)))) &&
      decide (mo.Z_error = mo.ln_Z_error * mo.Z)) = true :=
  snapshot_evidence_identities exInput ("") 1 1000 exOps exSnap exSnap_eval

/-- C5 (code bug): a mode whose `branch_number` record decodes to `0` is
returned with the keys `branch_unknown_1` / `branch_unknown_2` absent from
its dictionary: `snapshot.py` line 203 stores the `None` values under the
misspelled keys `branch_unkown_1` / `branch_unkown_2`, so the lookup
`mode["branch_unknown_1"]` raises a `KeyError` instead of yielding null. -/
theorem branch_unknown_typo :
    (snapshot exInput ("") 1 1000 exOps).map (fun s => s.modes.map (fun mo =>
        (mo.branch_number, mo.branch_unknown_1, mo.branch_unknown_2,
          mo.branch_unkown_1, mo.branch_unkown_2,
          mo.item ("branch_unknown_1"), mo.item ("branch_unkown_1"))))
      = .ok [(0, none, none, some none, some none, none, some .pnone)] := by
  with_unfolding_all rfl

/-- C6: the constant-efficiency flag is fixed once, right after the first
mode's two body records, as `ceffGuess` of the remaining records (records
remain and the next one has length exactly 1); once fixed to `b`, every
mode consumes exactly `2 + (1 if b else 0)` records; and the two fixtures
differing only in a trailing length-1 record toggle the flag. -/
theorem ceff_detection :
    (∀ (ops : Ops α) (n : Nat) (stream s1 : List (List String))
        (bd : BodyData α) (l : List (BodyData α)) (c2 : Option Bool)
        (rest : List (List String)),
        bodyOne ops stream = .ok (bd, s1) →
        bodyPass (α := α) ops (n + 1) stream none = .ok (l, c2, rest) →
        c2 = some (ceffGuess s1))
  ∧ (∀ (ops : Ops α) (n : Nat) (stream : List (List String)) (b : Bool)
        (l : List (BodyData α)) (rest : List (List String)),
        bodyPass (α := α) ops n stream none = .ok (l, some b, rest) →
        stream.length = (if b then 3 else 2) * n + rest.length)
  ∧ (snapshot exInputCeff ("") 1 1000 exOps).map (fun s => s.global_.ceff) =
      .ok (some true)
  ∧ (snapshot exInput ("") 1 1000 exOps).map (fun s => s.global_.ceff) =
      .ok (some false) := by
  refine ⟨?_, ?_, ?_, ?_⟩
  · intro ops n stream s1 bd l c2 rest h1 h2
    exact bodyPass_none_ceff h1 h2
  · intro ops n stream b l rest h
    exact bodyPass_none_length h
  · with_unfolding_all rfl
  · with_unfolding_all rfl

/-- Witness for C6: the determination rule evaluated on the fixture's
per-mode record stream. -/
theorem ceff_detection_witness :
    (some true : Option Bool) = some (ceffGuess ([[("9")]])) :=
  ceff_detection.1 exOps 0 ([[("T"), ("a"), ("b"), ("2")], [("1"), ("0"), ("0")], [("9")]])
    ([[("9")]]) ⟨true, ("a"), ("b"), 2, 1, 0, 0, none⟩
    ([⟨true, ("a"), ("b"), 2, 1, 0, 0, some ("9")⟩]) (some true) ([])
    (by with_unfolding_all rfl) (by with_unfolding_all rfl)

/-- C7: whenever the first four `resume.dat` records do not have token
counts exactly `[1, 4, 2, 1]`, the parse fails with `FormatError` and no
snapshot is produced. -/
theorem snapshot_header_shape_error (inp : Input α) (root : String)
    (tol maxiter : α) (ops : Ops α) (h1 : 0 < tol) (h2 : 0 < maxiter)
    (h3 : (inp.resume.take 4).map List.length ≠ [1, 4, 2, 1]) :
    snapshot inp root tol maxiter ops = .error .formatError := by
  have hh : headerPhase inp root tol maxiter ops = .error .formatError := by
    unfold headerPhase
    rw [if_pos h1, if_pos h2, if_neg h3]
  simp only [snapshot, parseCore, hh]

/-- Witness for C7: a header of shape `[1]` is rejected. -/
theorem snapshot_header_shape_error_witness :
    snapshot badInput ("") 1 1 exOps = .error .formatError :=
  snapshot_header_shape_error badInput ("") 1 1 exOps (by norm_num)
    (by norm_num) (by decide)

/-- C8: a sequence of at most 10 pairwise identical `ln_delta` vectors
never makes the monitor leave `WAITING`; the monitor is out of `WAITING`
exactly once 10 observations differing from their immediate predecessor
have been received, and never before. -/
theorem monitor_warmup :
    (∀ xs : List (List ℚ), xs.length ≤ 10 → (∀ a ∈ xs, ∀ b ∈ xs, a = b) →
        (runWatch xs).waiting = true)
  ∧ (∀ xs : List (List ℚ),
        ((runWatch xs).waiting = false ↔ 10 ≤ distinctCount xs)) := by
  constructor
  · intro xs _ hall
    rw [runWatch_waiting, distinctCount_const xs hall]
    simp
  · intro xs
    rw [runWatch_waiting]
    simp

/-- Witness for C8: three identical observations leave the monitor
waiting. -/
theorem monitor_warmup_witness :
    (runWatch ([[(1 : ℚ)], [1], [1]])).waiting = true :=
  monitor_warmup.1 ([[(1 : ℚ)], [1], [1]]) (by decide) (by decide)

/-- C9 (code bug): on a qualifying event whose parse succeeds with at
least one mode, `watch.py` line 65 looks up the key `ln_delta_max`, which
`snapshot.py` never sets (the per-mode value is stored under `ln_delta`),
so the lookup raises an uncaught `KeyError` and the monitor crashes
without appending the `(time, ln_delta)` entry. -/
theorem monitor_event_crash :
    monitorEvent (0 : ℚ) (snapshot exInput ("") 1 1000 exOps)
      ⟨[], []⟩ = .error () ∧
    exSnap.modes.map (fun mo => mo.item ("ln_delta_max")) = [none] ∧
    exSnap.modes.map (fun mo => mo.item ("ln_delta")) = [some (.pnum 1)] := by
  refine ⟨?_, ?_, ?_⟩ <;> with_unfolding_all rfl

/-- C10: in every successfully returned snapshot, `min_chi_squared` equals
`-2 * ln_max_like` (computed from the maximum log-likelihood), for the
global state and for every mode. -/
theorem snapshot_min_chi_squared (inp : Input α) (root : String)
    (tol maxiter : α) (ops : Ops α) (s : Snapshot α)
    (h : snapshot inp root tol maxiter ops = .ok s) :
    s.global_.min_chi_squared = -2 * s.global_.ln_max_like ∧
    s.modes.all
      (fun mo => decide (mo.min_chi_squared = -2 * mo.ln_max_like)) = true := by
  obtain ⟨c, ms, hp, hm, hs⟩ := snapshot_ok_elim h
  subst hs
  obtain ⟨raw, brs, s1, bds, ceff, hh, hb, hd, hc⟩ := parseCore_ok_elim hp
  subst hc
  constructor
  · exact headerPhase_min_chi_squared hh
  · rw [List.all_eq_true]
    intro mo hmo
    obtain ⟨k, br, bd, hcm⟩ := modesLoop_mem hm mo hmo
    obtain ⟨_, _, _, _, _, _, _, _, _, _, _, hmcs⟩ := computeMode_ok hcm
    simp [hmcs]

/-- Witness for C10: the fixture's snapshot satisfies the identity. -/
theorem snapshot_min_chi_squared_witness :
    exSnap.global_.min_chi_squared = -2 * exSnap.global_.ln_max_like ∧
    exSnap.modes.all
      (fun mo => decide (mo.min_chi_squared = -2 * mo.ln_max_like)) = true :=
  snapshot_min_chi_squared exInput ("") 1 1000 exOps exSnap exSnap_eval

end Multinest
